import Mathlib

/-!
Verification development for the Themis Rust client SDK
(src/clients/rust/src/lib.rs): a shallow embedding of the client's
routing, topology caching, retry, merging, batching, entity envelope
and transaction-lifecycle logic, together with theorems checking the
specification's claims against that embedding.

Conventions of the embedding:
* JSON values (serde_json::Value) are modelled by the inductive `Json`,
  with numbers as rationals (the claims only negate and compare scores,
  which rationals model faithfully for the non-NaN values involved).
* HTTP responses are modelled by `Response`: a status code, the raw body
  text, and `body : Option Json` for the result of parsing the body as
  JSON (`none` models a body that is not valid JSON).
* Network effects are passed in explicitly: a function under test takes
  the response (or the sequence of per-attempt outcomes) as an argument
  and returns its result together with any state transition.
* Machine integers: the only wrapping arithmetic in the source is the
  FNV-1a hash on u64, modelled with `% 2 ^ 64`.
-/

/-- Model of serde_json::Value: JSON values with rational numbers. -/
inductive Json where
  | null : Json
  | jbool : Bool → Json
  | num : Rat → Json
  | str : String → Json
  | arr : List Json → Json
  | obj : List (String × Json) → Json

/-- Model of serde_json Value::get on objects: field lookup; `none` on
non-objects, as in serde. -/
def Json.getField : Json → String → Option Json
  | .obj fields, key => fields.lookup key
  | _, _ => none

/-- Model of Value::as_str. -/
def Json.asStr : Json → Option String
  | .str s => some s
  | _ => none

/-- Model of Value::as_array. -/
def Json.asArr : Json → Option (List Json)
  | .arr xs => some xs
  | _ => none

/-- Model of Value::as_f64 (every JSON number is a rational here). -/
def Json.asNum : Json → Option Rat
  | .num q => some q
  | _ => none

/-- Model of Value::as_bool. -/
def Json.asBool : Json → Option Bool
  | .jbool b => some b
  | _ => none

/-- The error taxonomy of the client, from `enum ThemisError`.  The
`Transport` case carries the retryability of the underlying reqwest
error (err.is_timeout() || err.is_connect()) instead of the error value
itself. -/
inductive ThemisError where
  | InvalidConfig : String → ThemisError
  | Topology : String → ThemisError
  | Http : Nat → String → ThemisError
  | Transport : Bool → ThemisError
  | Serde : String → ThemisError
  | Transaction : String → ThemisError
deriving DecidableEq

/-- reqwest StatusCode::is_success: 200 ≤ status ≤ 299. -/
def is_success (status : Nat) : Bool :=
  decide (200 ≤ status) && decide (status ≤ 299)

/-- reqwest StatusCode::is_server_error: 500 ≤ status ≤ 599. -/
def is_server_error (status : Nat) : Bool :=
  decide (500 ≤ status) && decide (status ≤ 599)

/-- An HTTP response: status, raw body text, and the body parsed as
JSON (`none` when the text is not valid JSON). -/
structure Response where
  status : Nat
  text : String
  body : Option Json

/-- `ensure_success`: 2xx passes the response through, anything else is
an Http error carrying status and body text. -/
def ensure_success (response : Response) : Except ThemisError Response :=
  if is_success response.status then .ok response
  else .error (.Http response.status response.text)

/-- `.json::<Value>()` on a response: the parsed body, or a Serde error
when the text was not valid JSON. -/
def read_json (response : Response) : Except ThemisError Json :=
  match response.body with
  | some v => .ok v
  | none => .error (.Serde "invalid JSON body")

/-- `normalize`: strip all trailing slashes (str::trim_end_matches('/')). -/
def normalize_endpoint (endpoint : String) : String :=
  String.mk ((endpoint.data.reverse.dropWhile (fun c => c = '/')).reverse)

/-- `build_urn`: the routing key urn:themis:model:namespace:collection:uuid. -/
def build_urn (model ns collection uuid : String) : String :=
  "urn:themis:" ++ model ++ ":" ++ ns ++ ":" ++ collection ++ ":" ++ uuid

/-- `build_entity_key`: model.namespace.collection:uuid. -/
def build_entity_key (model ns collection uuid : String) : String :=
  model ++ "." ++ ns ++ "." ++ collection ++ ":" ++ uuid

/-- UTF-8 encoding of one scalar value, modelling Rust str::as_bytes
byte-for-byte. -/
def charUtf8 (c : Char) : List Nat :=
  let n := c.toNat
  if n < 0x80 then [n]
  else if n < 0x800 then
    [0xC0 ||| (n >>> 6), 0x80 ||| (n &&& 0x3F)]
  else if n < 0x10000 then
    [0xE0 ||| (n >>> 12), 0x80 ||| ((n >>> 6) &&& 0x3F), 0x80 ||| (n &&& 0x3F)]
  else
    [0xF0 ||| (n >>> 18), 0x80 ||| ((n >>> 12) &&& 0x3F),
     0x80 ||| ((n >>> 6) &&& 0x3F), 0x80 ||| (n &&& 0x3F)]

/-- The UTF-8 bytes of a string (Rust str::as_bytes). -/
def strBytes (s : String) : List Nat :=
  s.data.flatMap charUtf8

/-- One FNV-1a step on u64: hash ^= byte; hash = hash.wrapping_mul(16777619). -/
def fnvStep (hash byte : Nat) : Nat :=
  ((hash ^^^ byte) * 16777619) % 2 ^ 64

/-- `stable_hash`: FNV-1a style hash over the UTF-8 bytes, masked to the
non-negative 31-bit range ((hash & 0x7FFF_FFFF) as usize). -/
def stable_hash (input : String) : Nat :=
  ((strBytes input).foldl fnvStep 2166136261) &&& 0x7FFFFFFF

/-- `resolve_endpoint`: Topology error on an empty endpoint list, else
the endpoint at index stable_hash(urn) % len. -/
def resolve_endpoint (endpoints : List String) (ns model collection uuid : String) :
    Except ThemisError String :=
  match endpoints with
  | [] => .error (.Topology "no endpoints available")
  | e :: rest =>
    .ok ((e :: rest).get
      ⟨stable_hash (build_urn model ns collection uuid) % (e :: rest).length,
       Nat.mod_lt _ (Nat.succ_pos rest.length)⟩)

/-- `resolve_query_endpoint`: same hash and modulo over the raw query text. -/
def resolve_query_endpoint (endpoints : List String) (aql : String) :
    Except ThemisError String :=
  match endpoints with
  | [] => .error (.Topology "no endpoints available")
  | e :: rest =>
    .ok ((e :: rest).get
      ⟨stable_hash aql % (e :: rest).length, Nat.mod_lt _ (Nat.succ_pos rest.length)⟩)

/-- The endpoints contributed by one entry of the "shards" array, in
source order: a bare string, or an object's `endpoint`, then
`http_endpoint`, then each string of its `endpoints` array. -/
def shardEndpoints : Json → List String
  | .str endpoint => [normalize_endpoint endpoint]
  | .obj map =>
    (match map.lookup "endpoint" with
     | some (.str e) => [normalize_endpoint e]
     | _ => []) ++
    (match map.lookup "http_endpoint" with
     | some (.str e) => [normalize_endpoint e]
     | _ => []) ++
    (match map.lookup "endpoints" with
     | some (.arr values) =>
       values.flatMap (fun v => match v with | .str e => [normalize_endpoint e] | _ => [])
     | _ => [])
  | _ => []

/-- `extract_endpoints`: all endpoints found across the "shards" array,
preserving first-seen order. -/
def extract_endpoints (payload : Json) : List String :=
  match payload.getField "shards" >>= Json.asArr with
  | some shards => shards.flatMap shardEndpoints
  | none => []

/-- `fetch_topology`: require 2xx, parse the body as JSON, extract the
endpoints. -/
def fetch_topology (response : Response) : Except ThemisError (List String) :=
  match ensure_success response with
  | .error e => .error e
  | .ok r =>
    match read_json r with
    | .error e => .error e
    | .ok payload => .ok (extract_endpoints payload)

/-- `ensure_topology` as a state transition on the topology cache.
`configEndpoints` is the configured list, `topo` the cache before the
call, `fetch` the outcome fetch_topology would produce on this call
(consulted only when the cache is unresolved).  Returns the call's
result and the cache afterwards, mirroring the source: a resolved cache
short-circuits; a non-empty fetched list is stored; an empty fetched
list is a Topology error (the cache is left untouched); a failed fetch
stores the configured endpoints and surfaces the error. -/
def ensure_topology (configEndpoints : List String) (topo : Option (List String))
    (fetch : Except ThemisError (List String)) :
    Except ThemisError Unit × Option (List String) :=
  match topo with
  | some l => (.ok (), some l)
  | none =>
    match fetch with
    | .ok shards =>
      if shards.isEmpty then
        (.error (.Topology "topology response missing shards"), none)
      else
        (.ok (), some shards)
    | .error err => (.error err, some configEndpoints)

/-- `current_endpoints`: propagate an ensure_topology error, else the
cached list, falling back to the configured endpoints. -/
def current_endpoints (configEndpoints : List String) (topo : Option (List String))
    (fetch : Except ThemisError (List String)) :
    Except ThemisError (List String) × Option (List String) :=
  match ensure_topology configEndpoints topo fetch with
  | (.error e, topo2) => (.error e, topo2)
  | (.ok (), topo2) => (.ok (topo2.getD configEndpoints), topo2)

/-- JSON whitespace. -/
def isJsonWs (c : Char) : Bool :=
  c = ' ' || c = '\t' || c = '\n' || c = '\r'

/-- Skip leading JSON whitespace. -/
def skipWs : List Char → List Char
  | [] => []
  | c :: t => if isJsonWs c then skipWs t else c :: t

/-- Value of one hex digit. -/
def hexDigit (c : Char) : Option Nat :=
  if '0' ≤ c ∧ c ≤ '9' then some (c.toNat - '0'.toNat)
  else if 'a' ≤ c ∧ c ≤ 'f' then some (c.toNat - 'a'.toNat + 10)
  else if 'A' ≤ c ∧ c ≤ 'F' then some (c.toNat - 'A'.toNat + 10)
  else none

/-- The value of the four hex digits of a \\uXXXX escape. -/
def hex4 (h1 h2 h3 h4 : Char) : Option Nat :=
  match hexDigit h1, hexDigit h2, hexDigit h3, hexDigit h4 with
  | some a, some b, some c, some d => some (a * 4096 + b * 256 + c * 16 + d)
  | _, _, _, _ => none

/-- The single-character JSON escapes \" \\ \/ \b \f \n \r \t. -/
def simpleEscape (e : Char) : Option Char :=
  if e = '"' ∨ e = '\\' ∨ e = '/' then some e
  else if e = 'b' then some (Char.ofNat 8)
  else if e = 'f' then some (Char.ofNat 12)
  else if e = 'n' then some (Char.ofNat 10)
  else if e = 'r' then some (Char.ofNat 13)
  else if e = 't' then some (Char.ofNat 9)
  else none

/-- Body of a JSON string literal, after the opening quote: returns the
decoded content and the input remaining after the closing quote.
Handles the single-character escapes and \uXXXX for basic-plane
scalars; rejects unescaped control characters.  Part of the model of
serde_json::from_str (an external collaborator of the client; the model
under-accepts only surrogate-pair escapes for supplementary-plane
characters, which does not affect any claim). -/
def parseStringBody : List Char → Option (List Char × List Char)
  | [] => none
  | '"' :: t => some ([], t)
  | '\\' :: 'u' :: h1 :: h2 :: h3 :: h4 :: t3 =>
    match hex4 h1 h2 h3 h4 with
    | none => none
    | some code =>
      if code < 0xD800 ∨ 0xDFFF < code then
        (parseStringBody t3).map (fun p => (Char.ofNat code :: p.1, p.2))
      else none
  | '\\' :: e :: t2 =>
    match simpleEscape e with
    | some ch => (parseStringBody t2).map (fun p => (ch :: p.1, p.2))
    | none => none
  | '\\' :: [] => none
  | c :: t =>
    if c.toNat < 0x20 then none
    else (parseStringBody t).map (fun p => (c :: p.1, p.2))

/-- Model of serde_json::from_str::<String>: the whole input, modulo
surrounding whitespace, must be one JSON string literal; its decoded
content is returned. -/
def jsonParseString (s : String) : Option String :=
  match skipWs s.data with
  | [] => none
  | c :: t =>
    if c = '"' then
      match parseStringBody t with
      | some (content, rest) =>
        if (skipWs rest).isEmpty then some (String.mk content) else none
      | none => none
    else none

/-- JSON escaping of one character inside a string literal; part of the
model of serde_json::to_string. -/
def escapeChar (c : Char) : List Char :=
  if c = '"' then ['\\', '"']
  else if c = '\\' then ['\\', '\\']
  else if c = '\x08' then ['\\', 'b']
  else if c = '\x0c' then ['\\', 'f']
  else if c = '\n' then ['\\', 'n']
  else if c = '\r' then ['\\', 'r']
  else if c = '\t' then ['\\', 't']
  else if c.toNat < 0x20 then
    ['\\', 'u', '0', '0',
     (Nat.digitChar (c.toNat / 16)), (Nat.digitChar (c.toNat % 16))]
  else [c]

/-- A JSON string literal for the given content; part of the model of
serde_json::to_string. -/
def quoteString (s : String) : String :=
  String.mk ('"' :: s.data.flatMap escapeChar ++ ['"'])

/-- Digits of a rational: serde prints numbers in decimal; the exact
rendering is irrelevant to every claim, only that serialization is a
total function, so integers are printed exactly and non-integers via
Rat.repr. -/
def serializeNum (q : Rat) : String :=
  if q.den = 1 then toString q.num else toString q.num ++ "/" ++ toString q.den

mutual

/-- Model of serde_json::to_string on a JSON value. -/
def serializeJson : Json → String
  | .null => "null"
  | .jbool b => if b then "true" else "false"
  | .num q => serializeNum q
  | .str s => quoteString s
  | .arr xs => "[" ++ serializeJsonArr xs ++ "]"
  | .obj fields => "\x7b" ++ serializeJsonObj fields ++ "\x7d"

/-- Comma-separated serialization of array elements. -/
def serializeJsonArr : List Json → String
  | [] => ""
  | [x] => serializeJson x
  | x :: y :: t => serializeJson x ++ "," ++ serializeJsonArr (y :: t)

/-- Comma-separated serialization of object fields. -/
def serializeJsonObj : List (String × Json) → String
  | [] => ""
  | [(k, v)] => quoteString k ++ ":" ++ serializeJson v
  | (k, v) :: f :: t => quoteString k ++ ":" ++ serializeJson v ++ "," ++ serializeJsonObj (f :: t)

end

/-- `encode_entity` on the serde value of the caller's data: a JSON
string is passed through verbatim; any other value is serialized.
(With the input already a JSON value, neither to_value nor to_string
can fail, so the source's error paths are unreachable.) -/
def encode_entity (value : Json) : Except ThemisError String :=
  match value with
  | .str inner => .ok inner
  | other => .ok (serializeJson other)

/-- The deserialization hooks serde provides for a target type T:
from_value on a JSON value and from_str on embedded JSON text. -/
structure Decoder (T : Type) where
  fromValue : Json → Except String T
  fromStr : String → Except String T

/-- `decode_entity`: dispatch on key presence — an `entity` field is
decoded as a value; else a `blob` string field is decoded as embedded
JSON text; else the whole payload is decoded as a value. -/
def decode_entity {T : Type} (d : Decoder T) (payload : Json) : Except ThemisError T :=
  match payload.getField "entity" with
  | some entity => (d.fromValue entity).mapError ThemisError.Serde
  | none =>
    match payload.getField "blob" >>= Json.asStr with
    | some blob => (d.fromStr blob).mapError ThemisError.Serde
    | none => (d.fromValue payload).mapError ThemisError.Serde

/-- serde_json::from_value::<String>: only a JSON string deserializes
into String. -/
def stringFromValue : Json → Except String String
  | .str s => .ok s
  | _ => .error "invalid type: expected a string"

/-- serde_json::from_str::<String>: parse the text as a JSON string
literal. -/
def stringFromStr (s : String) : Except String String :=
  match jsonParseString s with
  | some t => .ok t
  | none => .error "invalid JSON text"

/-- The serde decoder for Rust's String target type. -/
def stringDecoder : Decoder String := ⟨stringFromValue, stringFromStr⟩

/-- The round trip of the claim: encode a plain string value with
encode_entity, wrap it as the server would ({"blob": ...}), and decode
with decode_entity's blob fallback. -/
def blob_round_trip (s : String) : Except ThemisError String :=
  match encode_entity (.str s) with
  | .error e => .error e
  | .ok blob => decode_entity stringDecoder (.obj [("blob", .str blob)])

/-- `QueryResult<T>`: decoded items, has-more flag, optional cursor, raw
server payload(s). -/
structure QueryResult (T : Type) where
  items : List T
  has_more : Bool
  next_cursor : Option String
  raw : Json

/-- `QueryResult::default()`. -/
def QueryResult.empty (T : Type) : QueryResult T :=
  ⟨[], false, none, Json.null⟩

/-- `decode_entities`: decode each value, failing on the first error
(collect::<Result<Vec<_>>>). -/
def decode_entities {T : Type} (d : Decoder T) (values : List Json) :
    Except ThemisError (List T) :=
  values.mapM (decode_entity d)

/-- `has_more` of a query payload: boolean field, defaulting to false. -/
def payload_has_more (payload : Json) : Bool :=
  ((payload.getField "has_more").bind Json.asBool).getD false

/-- `next_cursor` of a query payload: string field, if present. -/
def payload_next_cursor (payload : Json) : Option String :=
  (payload.getField "next_cursor").bind Json.asStr

/-- `parse_query_result`: prefer an `entities` array (has_more forced
false, no cursor); otherwise read `items`, `has_more`, `next_cursor`. -/
def parse_query_result {T : Type} (d : Decoder T) (payload : Json) :
    Except ThemisError (QueryResult T) :=
  match payload.getField "entities" >>= Json.asArr with
  | some entities =>
    match decode_entities d entities with
    | .error e => .error e
    | .ok items => .ok ⟨items, false, none, payload⟩
  | none =>
    match payload.getField "items" >>= Json.asArr with
    | some values =>
      match decode_entities d values with
      | .error e => .error e
      | .ok items => .ok ⟨items, payload_has_more payload, payload_next_cursor payload, payload⟩
    | none => .ok ⟨[], payload_has_more payload, payload_next_cursor payload, payload⟩

/-- One iteration of the multi-shard merge loop of `query`:
has_more |= part.has_more; items.append(part.items);
raw_partials.push(part.raw). -/
def merge_step {T : Type} (acc : List T × Bool × List Json) (part : QueryResult T) :
    List T × Bool × List Json :=
  (acc.1 ++ part.items, acc.2.1 || part.has_more, acc.2.2 ++ [part.raw])

/-- The merge of per-shard partial results in `query`: empty → default;
exactly one → returned unmodified; two or more → the fold of the merge
loop, with next_cursor dropped and raw the array of per-shard raws. -/
def merge_query_results {T : Type} : List (QueryResult T) → QueryResult T
  | [] => QueryResult.empty T
  | [p] => p
  | p :: q :: rest =>
    let folded := (p :: q :: rest).foldl merge_step ([], false, [])
    ⟨folded.1, folded.2.1, none, .arr folded.2.2⟩

/-- `score_value`: a `score` number if present, else the negation of a
`distance` number, else zero. -/
def score_value (value : Json) : Rat :=
  match (value.getField "score").bind Json.asNum with
  | some score => score
  | none =>
    match (value.getField "distance").bind Json.asNum with
    | some distance => -distance
    | none => 0

/-- Stable insertion into a list sorted by descending score, placing the
new item before the first element that does not outscore it — the order
`results.sort_by` (a stable sort with comparator
score(b).partial_cmp(score(a))) produces. -/
def insertScoreDesc (a : Json) : List Json → List Json
  | [] => [a]
  | b :: t => if score_value b ≤ score_value a then a :: b :: t else b :: insertScoreDesc a t

/-- Stable sort by descending score, modelling results.sort_by with the
descending comparator of `vector_search`. -/
def sortScoreDesc : List Json → List Json
  | [] => []
  | a :: t => insertScoreDesc a (sortScoreDesc t)

/-- The `results` arrays of all shard responses, concatenated in shard
order (`results.extend(items)` per shard). -/
def gather_results (partials : List Json) : List Json :=
  partials.foldl (fun acc v => acc ++ (((v.getField "results").bind Json.asArr).getD [])) []

/-- The merge step of `vector_search`: gather per-shard `results`, sort
descending by score, truncate to top-k when requested, and return
{"results": ..., "partials": ...}. -/
def merge_vector_results (partials : List Json) (top_k : Option Nat) : Json :=
  let results := sortScoreDesc (gather_results partials)
  let final := match top_k with
    | some k => if results.length > k then results.take k else results
    | none => results
  .obj [("results", .arr final), ("partials", .arr partials)]

/-- The outcome of one `get` call, as routed by `batch_get`:
Ok(Some v) / Ok(None) / Err(err rendered to a string). -/
inductive GetOutcome (T : Type) where
  | found : T → GetOutcome T
  | missing : GetOutcome T
  | failed : String → GetOutcome T
deriving DecidableEq

/-- `BatchGetResult<T>`; the HashMaps are modelled as association
lists. -/
structure BatchGetResult (T : Type) where
  found : List (String × T)
  missing : List String
  errors : List (String × String)
deriving DecidableEq

/-- HashMap::insert on an association list: replace the existing binding
or append a new one. -/
def insertA {α : Type} (k : String) (v : α) : List (String × α) → List (String × α)
  | [] => [(k, v)]
  | (k2, v2) :: t => if k2 = k then (k, v) :: t else (k2, v2) :: insertA k v t

/-- Routing of one uuid's outcome in the `batch_get` loop. -/
def batch_step {T : Type} (acc : BatchGetResult T) (uuid : String) (o : GetOutcome T) :
    BatchGetResult T :=
  match o with
  | .found v => { acc with found := insertA uuid v acc.found }
  | .missing => { acc with missing := acc.missing ++ [uuid] }
  | .failed msg => { acc with errors := insertA uuid msg acc.errors }

/-- The `batch_get` loop over (uuid, outcome) pairs. -/
def batch_get_go {T : Type} : List (String × GetOutcome T) → BatchGetResult T → BatchGetResult T
  | [], acc => acc
  | (u, o) :: t, acc => batch_get_go t (batch_step acc u o)

/-- `batch_get`: issue get once per uuid, sequentially, routing each
outcome; always returns Ok.  `outcomes` lists the per-call results in
call order. -/
def batch_get {T : Type} (uuids : List String) (outcomes : List (GetOutcome T)) :
    Except ThemisError (BatchGetResult T) :=
  .ok (batch_get_go (uuids.zip outcomes) ⟨[], [], []⟩)

/-- How often a uuid occurs across the three collections of a
BatchGetResult. -/
def tally {T : Type} (r : BatchGetResult T) (u : String) : Nat :=
  (r.found.map Prod.fst).count u + r.missing.count u + (r.errors.map Prod.fst).count u

/-- The found-entries a run of the batch loop contributes, in input
order: one binding per uuid whose outcome was a decoded value. -/
def foundEntries {T : Type} (pairs : List (String × GetOutcome T)) : List (String × T) :=
  pairs.filterMap (fun p => match p.2 with | .found v => some (p.1, v) | _ => none)

/-- The missing-entries a run of the batch loop contributes, in input
order. -/
def missingEntries {T : Type} (pairs : List (String × GetOutcome T)) : List String :=
  pairs.filterMap (fun p => match p.2 with | .missing => some p.1 | _ => none)

/-- The error-entries a run of the batch loop contributes, in input
order. -/
def errorEntries {T : Type} (pairs : List (String × GetOutcome T)) : List (String × String) :=
  pairs.filterMap (fun p => match p.2 with | .failed msg => some (p.1, msg) | _ => none)

/-- `Transaction`: server-issued id plus active flag. -/
structure Transaction where
  transaction_id : String
  is_active : Bool
deriving DecidableEq

/-- Parsing of a 2xx begin-transaction body: the `transaction_id` field
read as a string, or a Transaction error when absent or not a string. -/
def parse_begin_response (result : Json) : Except ThemisError String :=
  match (result.getField "transaction_id").bind Json.asStr with
  | some s => .ok s
  | none => .error (.Transaction "missing transaction_id in response")

/-- `begin_transaction`, after the request: require 2xx, parse the
body as JSON, read transaction_id, return an active handle. -/
def begin_transaction (response : Response) : Except ThemisError Transaction :=
  match ensure_success response with
  | .error e => .error e
  | .ok r =>
    match read_json r with
    | .error e => .error e
    | .ok result =>
      match parse_begin_response result with
      | .error e => .error e
      | .ok tid => .ok ⟨tid, true⟩

/-- `Transaction::ensure_active`. -/
def ensure_active (tx : Transaction) : Except ThemisError Unit :=
  if tx.is_active then .ok () else .error (.Transaction "transaction is not active")

/-- The observable outcome of a transaction-scoped operation: its
result, whether any network request was issued, and the handle state
afterwards. -/
structure TxStep (α : Type) where
  result : Except ThemisError α
  network : Bool
  tx : Transaction

/-- `Transaction::get`: active check, shard resolution, request with
the X-Transaction-Id header, 404 → None, 2xx body decoded by
decode_entity. -/
def tx_get {T : Type} (d : Decoder T) (tx : Transaction) (endpoints : List String)
    (ns model collection uuid : String) (response : Response) : TxStep (Option T) :=
  match ensure_active tx with
  | .error e => ⟨.error e, false, tx⟩
  | .ok () =>
    match resolve_endpoint endpoints ns model collection uuid with
    | .error e => ⟨.error e, false, tx⟩
    | .ok _endpoint =>
      if response.status = 404 then ⟨.ok none, true, tx⟩
      else
        match ensure_success response with
        | .error e => ⟨.error e, true, tx⟩
        | .ok r =>
          match read_json r with
          | .error e => ⟨.error e, true, tx⟩
          | .ok payload => ⟨(decode_entity d payload).map some, true, tx⟩

/-- `Transaction::put`: active check, shard resolution, body built from
encode_entity, request, 2xx required. -/
def tx_put (tx : Transaction) (endpoints : List String)
    (ns model collection uuid : String) (data : Json) (response : Response) : TxStep Unit :=
  match ensure_active tx with
  | .error e => ⟨.error e, false, tx⟩
  | .ok () =>
    match resolve_endpoint endpoints ns model collection uuid with
    | .error e => ⟨.error e, false, tx⟩
    | .ok _endpoint =>
      match encode_entity data with
      | .error e => ⟨.error e, false, tx⟩
      | .ok _blob =>
        match ensure_success response with
        | .error e => ⟨.error e, true, tx⟩
        | .ok _ => ⟨.ok (), true, tx⟩

/-- `Transaction::delete`: active check, shard resolution, request,
404 → false, 2xx → true. -/
def tx_delete (tx : Transaction) (endpoints : List String)
    (ns model collection uuid : String) (response : Response) : TxStep Bool :=
  match ensure_active tx with
  | .error e => ⟨.error e, false, tx⟩
  | .ok () =>
    match resolve_endpoint endpoints ns model collection uuid with
    | .error e => ⟨.error e, false, tx⟩
    | .ok _endpoint =>
      if response.status = 404 then ⟨.ok false, true, tx⟩
      else
        match ensure_success response with
        | .error e => ⟨.error e, true, tx⟩
        | .ok _ => ⟨.ok true, true, tx⟩

/-- `Transaction::query`: active check, primary endpoint (first
configured), request, 2xx body parsed by parse_query_result. -/
def tx_query {T : Type} (d : Decoder T) (tx : Transaction) (endpoints : List String)
    (response : Response) : TxStep (QueryResult T) :=
  match ensure_active tx with
  | .error e => ⟨.error e, false, tx⟩
  | .ok () =>
    match endpoints.head? with
    | none => ⟨.error (.InvalidConfig "endpoints must not be empty"), false, tx⟩
    | some _endpoint =>
      match ensure_success response with
      | .error e => ⟨.error e, true, tx⟩
      | .ok r =>
        match read_json r with
        | .error e => ⟨.error e, true, tx⟩
        | .ok payload => ⟨parse_query_result d payload, true, tx⟩

/-- `Transaction::commit`: active check, primary endpoint, request,
2xx required, then the handle is flipped inactive. -/
def tx_commit (tx : Transaction) (endpoints : List String) (response : Response) :
    TxStep Unit :=
  match ensure_active tx with
  | .error e => ⟨.error e, false, tx⟩
  | .ok () =>
    match endpoints.head? with
    | none => ⟨.error (.InvalidConfig "endpoints must not be empty"), false, tx⟩
    | some _endpoint =>
      match ensure_success response with
      | .error e => ⟨.error e, true, tx⟩
      | .ok _ => ⟨.ok (), true, ⟨tx.transaction_id, false⟩⟩

/-- `Transaction::rollback`: same shape as commit, against the rollback
endpoint. -/
def tx_rollback (tx : Transaction) (endpoints : List String) (response : Response) :
    TxStep Unit :=
  match ensure_active tx with
  | .error e => ⟨.error e, false, tx⟩
  | .ok () =>
    match endpoints.head? with
    | none => ⟨.error (.InvalidConfig "endpoints must not be empty"), false, tx⟩
    | some _endpoint =>
      match ensure_success response with
      | .error e => ⟨.error e, true, tx⟩
      | .ok _ => ⟨.ok (), true, ⟨tx.transaction_id, false⟩⟩

/-- The outcome of one send attempt inside the retry loop: a response
with its status, or a transport failure with its retryability
(should_retry = is_timeout || is_connect). -/
inductive SendOutcome where
  | ok : Nat → SendOutcome
  | failed : Bool → SendOutcome
deriving DecidableEq

/-- The retry loop of `request_with_headers`: at attempt i the send
yields `outcomes i`; a 5xx response with attempts remaining retries, any
other response returns; a retryable transport failure with attempts
remaining retries, otherwise the Transport error propagates.  Returns
the result together with the number of send attempts performed. -/
def request_loop (outcomes : Nat → SendOutcome) (maxAttempts attempt : Nat) :
    Except ThemisError Nat × Nat :=
  match outcomes attempt with
  | .ok status =>
    if h : is_server_error status = true ∧ attempt + 1 < maxAttempts then
      let r := request_loop outcomes maxAttempts (attempt + 1)
      (r.1, r.2 + 1)
    else (.ok status, 1)
  | .failed retryable =>
    if h : maxAttempts ≤ attempt + 1 ∨ retryable = false then
      (.error (.Transport retryable), 1)
    else
      let r := request_loop outcomes maxAttempts (attempt + 1)
      (r.1, r.2 + 1)
termination_by maxAttempts - attempt
decreasing_by
  · omega
  · omega

/-- `request_with_headers`: the loop entered at attempt 0 with
max_attempts = max_retries.max(1). -/
def request_with_headers (outcomes : Nat → SendOutcome) (max_retries : Nat) :
    Except ThemisError Nat × Nat :=
  request_loop outcomes (max max_retries 1) 0

/-- C1 counterexample: with configured endpoints ["http://a"], a
successful discovery yielding zero endpoints returns a Topology error
but leaves the cache unresolved (`none`), not resolved to the
configured list as the claim states; consequently a following call
re-attempts discovery and adopts its result ["http://b"] instead of
proceeding on the configured endpoints. -/
theorem C1_counterexample :
    (ensure_topology ["http://a"] none (.ok [])).1 =
      .error (.Topology "topology response missing shards") ∧
    (ensure_topology ["http://a"] none (.ok [])).2 = none ∧
    (ensure_topology ["http://a"] none (.ok [])).2 ≠ some ["http://a"] ∧
    ensure_topology ["http://a"] (ensure_topology ["http://a"] none (.ok [])).2
        (.ok ["http://b"]) = (.ok (), some ["http://b"]) := by
  exact ⟨rfl, rfl, by decide, rfl⟩

/-- C1 (amended): if discovery succeeds but yields zero endpoints, the
triggering call returns a Topology error and the cache is left
unresolved, so a following call re-attempts discovery; it is a failed
discovery (transport/HTTP error) that resolves the cache to the
configured endpoints; a resolved cache is never re-fetched; and a 2xx
topology response whose shards array is empty is exactly the successful
zero-endpoint discovery. -/
theorem C1_amended (cfg shards l : List String) (e : ThemisError)
    (fetch : Except ThemisError (List String)) :
    ensure_topology cfg none (.ok []) =
      (.error (.Topology "topology response missing shards"), none) ∧
    ensure_topology cfg none (.error e) = (.error e, some cfg) ∧
    (shards ≠ [] → ensure_topology cfg none (.ok shards) = (.ok (), some shards)) ∧
    ensure_topology cfg (some l) fetch = (.ok (), some l) ∧
    (∀ r : Response, is_success r.status = true →
      r.body = some (.obj [("shards", .arr [])]) → fetch_topology r = .ok []) := by
  refine ⟨rfl, rfl, ?_, rfl, ?_⟩
  · intro h
    cases shards with
    | nil => exact absurd rfl h
    | cons a t => rfl
  · intro r hs hb
    simp [fetch_topology, ensure_success, hs, read_json, hb, extract_endpoints,
      Json.getField, Json.asArr]

/-- C1 witness: the amended facts at concrete inputs. -/
theorem C1_witness :
    ensure_topology ["http://a"] none (.ok []) =
      (.error (.Topology "topology response missing shards"), none) ∧
    ensure_topology ["http://a"] none (.ok ["http://b"]) = (.ok (), some ["http://b"]) ∧
    ensure_topology ["http://a"] (some ["http://c"]) (.ok []) = (.ok (), some ["http://c"]) ∧
    fetch_topology ⟨200, "", some (.obj [("shards", .arr [])])⟩ = .ok [] := by
  have h := C1_amended ["http://a"] ["http://b"] ["http://c"]
    (.Transport true) (.ok [])
  exact ⟨h.1, h.2.2.1 (by decide), h.2.2.2.1,
    h.2.2.2.2 ⟨200, "", some (.obj [("shards", .arr [])])⟩ (by decide) rfl⟩

/-- C2 counterexample: a 2xx begin response whose transaction_id is the
empty string is accepted — begin_transaction returns an active handle
with empty id instead of the Transaction error the claim requires. -/
theorem C2_counterexample :
    begin_transaction ⟨200, "", some (.obj [("transaction_id", .str "")])⟩ =
      .ok ⟨"", true⟩ := by
  rfl

/-- C2 (amended): begin_transaction requires 2xx (otherwise an Http
error), and after a 2xx response with JSON body it returns a
Transaction error unless the body contains a `transaction_id` field
holding a string; the string may be empty — an empty transaction_id is
accepted and yields an active handle with empty id. -/
theorem C2_amended (response : Response) (v : Json) (s : String) :
    (is_success response.status = false →
      begin_transaction response = .error (.Http response.status response.text)) ∧
    (is_success response.status = true → response.body = some v →
      (v.getField "transaction_id").bind Json.asStr = some s →
      begin_transaction response = .ok ⟨s, true⟩) ∧
    (is_success response.status = true → response.body = some v →
      (v.getField "transaction_id").bind Json.asStr = none →
      begin_transaction response = .error (.Transaction "missing transaction_id in response")) := by
  refine ⟨?_, ?_, ?_⟩
  · intro h
    simp [begin_transaction, ensure_success, h]
  · intro hs hb ht
    simp [begin_transaction, ensure_success, hs, read_json, hb, parse_begin_response, ht]
  · intro hs hb ht
    simp [begin_transaction, ensure_success, hs, read_json, hb, parse_begin_response, ht]

/-- C2 witness: the amended behavior at concrete inputs, including the
empty transaction_id. -/
theorem C2_witness :
    begin_transaction ⟨500, "boom", some .null⟩ = .error (.Http 500 "boom") ∧
    begin_transaction ⟨200, "", some (.obj [("transaction_id", .str "")])⟩ = .ok ⟨"", true⟩ ∧
    begin_transaction ⟨200, "", some (.obj [("transaction_id", .num 7)])⟩ =
      .error (.Transaction "missing transaction_id in response") := by
  refine ⟨?_, ?_, ?_⟩
  · exact (C2_amended ⟨500, "boom", some .null⟩ .null "").1 (by decide)
  · exact (C2_amended ⟨200, "", some (.obj [("transaction_id", .str "")])⟩
      (.obj [("transaction_id", .str "")]) "").2.1 (by decide) rfl rfl
  · exact (C2_amended ⟨200, "", some (.obj [("transaction_id", .num 7)])⟩
      (.obj [("transaction_id", .num 7)]) "").2.2 (by decide) rfl rfl

/-- C4: routing determinism — equal (model, namespace, collection,
uuid) and equal non-empty endpoint lists give the same URN, the same
hash-modulo shard index, and the same resolved endpoint in both runs. -/
theorem C4_resolve_deterministic (model ns collection uuid model2 ns2 collection2 uuid2 : String)
    (endpoints endpoints2 : List String)
    (h1 : model = model2) (h2 : ns = ns2) (h3 : collection = collection2)
    (h4 : uuid = uuid2) (h5 : endpoints = endpoints2) (h6 : endpoints ≠ []) :
    build_urn model ns collection uuid = build_urn model2 ns2 collection2 uuid2 ∧
    stable_hash (build_urn model ns collection uuid) % endpoints.length =
      stable_hash (build_urn model2 ns2 collection2 uuid2) % endpoints2.length ∧
    ∃ ep, resolve_endpoint endpoints ns model collection uuid = .ok ep ∧
      resolve_endpoint endpoints2 ns2 model2 collection2 uuid2 = .ok ep := by
  subst h1 h2 h3 h4 h5
  refine ⟨rfl, rfl, ?_⟩
  cases endpoints with
  | nil => exact absurd rfl h6
  | cons e rest => exact ⟨_, rfl, rfl⟩

/-- C4 witness: resolution at a concrete key and two-endpoint topology
returns the same endpoint in both runs. -/
theorem C4_witness :
    build_urn "relational" "default" "users" "42" =
      build_urn "relational" "default" "users" "42" ∧
    stable_hash (build_urn "relational" "default" "users" "42") % 2 =
      stable_hash (build_urn "relational" "default" "users" "42") % 2 ∧
    ∃ ep, resolve_endpoint ["http://a", "http://b"] "default" "relational" "users" "42" = .ok ep ∧
      resolve_endpoint ["http://a", "http://b"] "default" "relational" "users" "42" = .ok ep := by
  have h := C4_resolve_deterministic "relational" "default" "users" "42"
    "relational" "default" "users" "42" ["http://a", "http://b"] ["http://a", "http://b"]
    rfl rfl rfl rfl rfl (by decide)
  exact h

/-- The merge loop of `query` computes concatenated items in order, the
OR of the has_more flags, and the per-shard raw payloads in order, on
top of whatever the accumulator already holds. -/
theorem merge_fold {T : Type} (ps : List (QueryResult T)) :
    ∀ acc : List T × Bool × List Json,
      ps.foldl merge_step acc =
        (acc.1 ++ (ps.map QueryResult.items).flatten,
         acc.2.1 || ps.any QueryResult.has_more,
         acc.2.2 ++ ps.map QueryResult.raw) := by
  induction ps with
  | nil => intro acc; simp
  | cons p t ih =>
    intro acc
    simp only [List.foldl_cons, ih, merge_step, List.map_cons, List.flatten_cons,
      List.any_cons, List.append_assoc, Bool.or_assoc, List.cons_append, List.nil_append]

/-- C5: a multi-shard query result over two or more shards merges to
the concatenation of per-shard items in shard-iteration order, the OR
of the has_more flags, a dropped cursor, and the ordered sequence of
per-shard raw payloads; a result from exactly one shard is returned
unmodified, cursor included. -/
theorem C5_merge_query (T : Type) (ps : List (QueryResult T)) (p : QueryResult T) :
    (2 ≤ ps.length →
      merge_query_results ps =
        ⟨(ps.map QueryResult.items).flatten, ps.any QueryResult.has_more, none,
         .arr (ps.map QueryResult.raw)⟩) ∧
    merge_query_results [p] = p := by
  constructor
  · intro hlen
    match ps with
    | [] => simp at hlen
    | [q] => simp at hlen
    | q :: r :: rest =>
      show (⟨_, _, none, _⟩ : QueryResult T) = _
      rw [merge_fold (q :: r :: rest) ([], false, [])]
      simp
  · rfl

/-- C5 witness: the three-shard scenario of the spec (shard 2 reports
has_more) merges to ordered items, has_more true, no cursor, ordered
raws; a single shard is returned unmodified including its cursor. -/
theorem C5_witness :
    merge_query_results
        [⟨[1, 2], false, some "c1", .str "r1"⟩,
         ⟨[3], true, none, .str "r2"⟩,
         ⟨[4], false, none, .str "r3"⟩] =
      (⟨[1, 2, 3, 4], true, none,
        .arr [.str "r1", .str "r2", .str "r3"]⟩ : QueryResult Nat) ∧
    merge_query_results [(⟨[9], false, some "keep", .str "r"⟩ : QueryResult Nat)] =
      ⟨[9], false, some "keep", .str "r"⟩ := by
  constructor
  · exact (C5_merge_query Nat
      [⟨[1, 2], false, some "c1", .str "r1"⟩, ⟨[3], true, none, .str "r2"⟩,
       ⟨[4], false, none, .str "r3"⟩] (QueryResult.empty Nat)).1 (by norm_num)
  · exact (C5_merge_query Nat [] ⟨[9], false, some "keep", .str "r"⟩).2

/-- C10: decode_entity dispatches on key presence, not on decode
success — with an `entity` key present the result is exactly the
decoding of that value (errors included) and is independent of the
blob decoder; the blob fallback runs exactly when `entity` is absent
and `blob` is present as a string; the whole-payload fallback runs
only when both are unavailable. -/
theorem C10_decode_dispatch (T : Type) (d : Decoder T) (g : String → Except String T)
    (payload entity : Json) (blob : String) :
    (payload.getField "entity" = some entity →
      decode_entity d payload = (d.fromValue entity).mapError ThemisError.Serde ∧
      decode_entity ⟨d.fromValue, g⟩ payload = decode_entity d payload) ∧
    (payload.getField "entity" = none →
      (payload.getField "blob").bind Json.asStr = some blob →
      decode_entity d payload = (d.fromStr blob).mapError ThemisError.Serde) ∧
    (payload.getField "entity" = none →
      (payload.getField "blob").bind Json.asStr = none →
      decode_entity d payload = (d.fromValue payload).mapError ThemisError.Serde) := by
  refine ⟨?_, ?_, ?_⟩
  · intro h
    constructor <;> simp [decode_entity, h]
  · intro he hb
    simp [decode_entity, he, hb]
  · intro he hb
    simp [decode_entity, he, hb]

/-- C10 witness: with both `entity` and a decodable `blob` present, the
failing entity decoding is returned and the blob fallback is never
attempted; with `entity` absent the same blob decodes. -/
theorem C10_witness :
    decode_entity stringDecoder (.obj [("entity", .num 3), ("blob", .str "\"x\"")]) =
      .error (.Serde "invalid type: expected a string") ∧
    decode_entity stringDecoder (.obj [("blob", .str "\"x\"")]) = .ok "x" := by
  have h1 := (C10_decode_dispatch String stringDecoder stringDecoder.fromStr
    (.obj [("entity", .num 3), ("blob", .str "\"x\"")]) (.num 3) "\"x\"").1 rfl
  have h2 := (C10_decode_dispatch String stringDecoder stringDecoder.fromStr
    (.obj [("blob", .str "\"x\"")]) .null "\"x\"").2.1 rfl rfl
  exact ⟨h1.1, h2⟩


set_option maxHeartbeats 1000000 in
/-- The JSON string-body parser consumes strictly more input than the
content it produces (at least the closing quote). -/
theorem parseStringBody_shrink (l : List Char) :
    ∀ content rest, parseStringBody l = some (content, rest) →
      content.length + rest.length + 1 ≤ l.length := by
  induction l using parseStringBody.induct <;> intro content rest h <;>
      simp only [parseStringBody] at h <;> simp_all [Option.map_eq_some'] <;>
      try omega
  all_goals {
    obtain ⟨a, hp, hc⟩ := h
    subst hc
    rename_i ih
    have := ih a rest hp
    simp only [List.length_cons]
    omega
  }

/-- Skipping whitespace never lengthens the input. -/
theorem skipWs_length (l : List Char) : (skipWs l).length ≤ l.length := by
  induction l with
  | nil => simp [skipWs]
  | cons c t ih =>
    by_cases hc : isJsonWs c = true
    · simp [skipWs, hc]
      omega
    · simp [skipWs, hc]

/-- A successful JSON string parse yields strictly fewer characters than
its input (the two quotes are consumed). -/
theorem jsonParseString_shrink (s t : String) :
    jsonParseString s = some t → t.length < s.length := by
  intro h
  unfold jsonParseString at h
  rcases hws : skipWs s.data with _ | ⟨c, tail⟩ <;> rw [hws] at h
  · exact absurd h (by simp)
  · dsimp only at h
    by_cases hc : c = '"'
    · rw [if_pos hc] at h
      rcases hp : parseStringBody tail with _ | ⟨content, rest⟩ <;> rw [hp] at h
      · exact absurd h (by simp)
      · dsimp only at h
        by_cases hre : (skipWs rest).isEmpty = true
        · rw [if_pos hre] at h
          have hmk := Option.some.inj h
          have hshrink := parseStringBody_shrink tail content rest hp
          have hws_len := skipWs_length s.data
          rw [hws] at hws_len
          have ht_len : t.length = content.length := by
            rw [← hmk]
            rfl
          have hs_len : s.length = s.data.length := rfl
          simp only [List.length_cons] at hws_len
          omega
        · rw [if_neg hre] at h
          exact absurd h (by simp)
    · rw [if_neg hc] at h
      exact absurd h (by simp)

/-- C3 counterexample: encoding the plain string "hello" with
encode_entity and decoding the resulting {"blob": ...} payload via
decode_entity's blob fallback does not return "hello" — it fails with a
Serde error, because the blob fallback parses the blob as JSON text and
"hello" is not valid JSON. -/
theorem C3_counterexample :
    blob_round_trip "hello" = .error (.Serde "invalid JSON text") ∧
    blob_round_trip "hello" ≠ .ok "hello" := by
  constructor
  · rfl
  · intro h
    exact Except.noConfusion h

/-- C3 (amended): encode_entity passes a plain string through verbatim,
but decode_entity's blob fallback JSON-parses the blob, so the round
trip returns the JSON-decoded content of the string — strictly shorter
than it and never equal to it — when the string is a JSON string
literal, and fails with a Serde error otherwise. -/
theorem C3_amended (s : String) :
    encode_entity (.str s) = .ok s ∧
    blob_round_trip s =
      (match jsonParseString s with
       | some t => .ok t
       | none => .error (.Serde "invalid JSON text")) ∧
    (∀ t, blob_round_trip s = .ok t → t.length < s.length) ∧
    (∀ t, blob_round_trip s = .ok t → t ≠ s) := by
  have hrt : blob_round_trip s =
      (match jsonParseString s with
       | some t => .ok t
       | none => .error (.Serde "invalid JSON text")) := by
    cases hj : jsonParseString s with
    | none =>
      simp [blob_round_trip, encode_entity, decode_entity, Json.getField,
        Json.asStr, Except.mapError, List.lookup, stringDecoder, stringFromStr, hj]
    | some u =>
      simp [blob_round_trip, encode_entity, decode_entity, Json.getField,
        Json.asStr, Except.mapError, List.lookup, stringDecoder, stringFromStr, hj]
  have hok : ∀ t, blob_round_trip s = .ok t → jsonParseString s = some t := by
    intro t h
    rw [hrt] at h
    cases hj : jsonParseString s with
    | none =>
      rw [hj] at h
      exact Except.noConfusion h
    | some u =>
      rw [hj] at h
      simp only [Except.ok.injEq] at h
      rw [h]
  refine ⟨rfl, hrt, ?_, ?_⟩
  · intro t h
    exact jsonParseString_shrink s t (hok t h)
  · intro t h heq
    have := jsonParseString_shrink s t (hok t h)
    rw [heq] at this
    omega

/-- C3 witness: at s = "\"hi\"" (itself a JSON string literal) the
round trip succeeds but returns the decoded content "hi", not the
original string. -/
theorem C3_witness :
    encode_entity (.str "\"hi\"") = .ok "\"hi\"" ∧
    blob_round_trip "\"hi\"" = .ok "hi" ∧
    "hi" ≠ "\"hi\"" := by
  have h := C3_amended "\"hi\""
  have hok : blob_round_trip "\"hi\"" = .ok "hi" := by
    rw [h.2.1]
    rfl
  exact ⟨h.1, hok, h.2.2.2 "hi" hok⟩

/-- Membership in a score-ordered insertion. -/
theorem mem_insertScoreDesc (a x : Json) (l : List Json) :
    x ∈ insertScoreDesc a l ↔ x = a ∨ x ∈ l := by
  induction l with
  | nil => simp [insertScoreDesc]
  | cons b t ih =>
    by_cases hb : score_value b ≤ score_value a
    · simp [insertScoreDesc, hb]
    · simp [insertScoreDesc, hb, ih]
      tauto

/-- Inserting into a descending-by-score list keeps it descending. -/
theorem pairwise_insertScoreDesc (a : Json) (l : List Json)
    (h : l.Pairwise (fun x y => score_value y ≤ score_value x)) :
    (insertScoreDesc a l).Pairwise (fun x y => score_value y ≤ score_value x) := by
  induction l with
  | nil => simp [insertScoreDesc]
  | cons b t ih =>
    rw [List.pairwise_cons] at h
    obtain ⟨hb, ht⟩ := h
    by_cases hba : score_value b ≤ score_value a
    · rw [insertScoreDesc, if_pos hba, List.pairwise_cons]
      refine ⟨?_, List.pairwise_cons.mpr ⟨hb, ht⟩⟩
      intro x hx
      rcases List.mem_cons.mp hx with hxb | hxt
      · rw [hxb]; exact hba
      · exact le_trans (hb x hxt) hba
    · rw [insertScoreDesc, if_neg hba, List.pairwise_cons]
      refine ⟨?_, ih ht⟩
      intro x hx
      rcases (mem_insertScoreDesc a x t).mp hx with hxa | hxt
      · rw [hxa]
        exact le_of_lt (lt_of_not_le hba)
      · exact hb x hxt

/-- The sort of `vector_search` produces a descending-by-score list. -/
theorem sorted_sortScoreDesc (l : List Json) :
    (sortScoreDesc l).Pairwise (fun x y => score_value y ≤ score_value x) := by
  induction l with
  | nil => simp [sortScoreDesc]
  | cons a t ih => exact pairwise_insertScoreDesc a (sortScoreDesc t) ih

/-- C6: the merged vector-search results list is sorted descending by
score (a `score` field, else the negated `distance`, else zero), and
with a top-k limit k it is the globally sorted list truncated to k, so
it has at most k items. -/
theorem C6_vector_merge (partials : List Json) (k : Nat) :
    (∃ final, merge_vector_results partials none =
        .obj [("results", .arr final), ("partials", .arr partials)] ∧
      final.Pairwise (fun x y => score_value y ≤ score_value x)) ∧
    (∃ final, merge_vector_results partials (some k) =
        .obj [("results", .arr final), ("partials", .arr partials)] ∧
      final.Pairwise (fun x y => score_value y ≤ score_value x) ∧
      final = (sortScoreDesc (gather_results partials)).take k ∧
      final.length ≤ k) := by
  constructor
  · exact ⟨sortScoreDesc (gather_results partials), rfl, sorted_sortScoreDesc _⟩
  · have heq : (if (sortScoreDesc (gather_results partials)).length > k then
        (sortScoreDesc (gather_results partials)).take k
        else sortScoreDesc (gather_results partials)) =
        (sortScoreDesc (gather_results partials)).take k := by
      by_cases hlen : (sortScoreDesc (gather_results partials)).length > k
      · rw [if_pos hlen]
      · rw [if_neg hlen, List.take_of_length_le (by omega)]
    have hm : merge_vector_results partials (some k) =
        .obj [("results", .arr ((sortScoreDesc (gather_results partials)).take k)),
              ("partials", .arr partials)] := by
      simp only [merge_vector_results]
      rw [heq]
    exact ⟨_, hm, List.Pairwise.sublist (List.take_sublist _ _) (sorted_sortScoreDesc _), rfl,
      List.length_take_le _ _⟩

/-- The two-shard vector scenario of the spec (scaled to integer
scores): per-shard scores [90, 20] and [95, 10] with k = 2 merge to the
two highest-scoring items in descending order, regardless of shard
origin. -/
theorem vector_merge_example :
    merge_vector_results
        [.obj [("results", .arr [.obj [("score", .num 90)], .obj [("score", .num 20)]])],
         .obj [("results", .arr [.obj [("score", .num 95)], .obj [("score", .num 10)]])]]
        (some 2) =
      .obj [("results", .arr [.obj [("score", .num 95)], .obj [("score", .num 90)]]),
            ("partials", .arr
              [.obj [("results", .arr [.obj [("score", .num 90)], .obj [("score", .num 20)]])],
               .obj [("results", .arr [.obj [("score", .num 95)], .obj [("score", .num 10)]])]])] := by
  rfl

/-- Items lacking a score sort by negated distance: nearer (distance
20) outranks farther (distance 90), and an explicit score of 5 outranks
both (their scores are -20 and -90). -/
theorem vector_merge_distance_example :
    merge_vector_results
        [.obj [("results", .arr [.obj [("distance", .num 90)], .obj [("distance", .num 20)]])],
         .obj [("results", .arr [.obj [("score", .num 5)]])]]
        none =
      .obj [("results", .arr [.obj [("score", .num 5)], .obj [("distance", .num 20)],
                              .obj [("distance", .num 90)]]),
            ("partials", .arr
              [.obj [("results", .arr [.obj [("distance", .num 90)], .obj [("distance", .num 20)]])],
               .obj [("results", .arr [.obj [("score", .num 5)]])]])] := by
  rfl

/-- HashMap::insert with a fresh key appends the binding. -/
theorem insertA_not_mem {α : Type} (k : String) (v : α) (l : List (String × α))
    (h : k ∉ l.map Prod.fst) : insertA k v l = l ++ [(k, v)] := by
  induction l with
  | nil => rfl
  | cons p t ih =>
    obtain ⟨k2, v2⟩ := p
    simp only [List.map_cons, List.mem_cons] at h
    push_neg at h
    rw [insertA, if_neg (fun hk => h.1 hk.symm), ih h.2]
    rfl

/-- Appending one element adds one to the count of that element. -/
theorem count_append_one (l : List String) (u v : String) :
    (l ++ [u]).count v = l.count v + (if v = u then 1 else 0) := by
  rcases eq_or_ne v u with h | h
  · simp [h, List.count_append, List.count_cons]
  · simp [h, Ne.symm h, List.count_append, List.count_cons]

/-- One batch step does not change the tally of any other uuid, when
the stepped uuid is fresh. -/
theorem tally_batch_step_ne {T : Type} (acc : BatchGetResult T) (u0 : String)
    (o0 : GetOutcome T) (hu0 : tally acc u0 = 0) (w : String) (hw : w ≠ u0) :
    tally (batch_step acc u0 o0) w = tally acc w := by
  have hfound : u0 ∉ acc.found.map Prod.fst := by
    refine List.count_eq_zero.mp ?_
    unfold tally at hu0
    omega
  have herr : u0 ∉ acc.errors.map Prod.fst := by
    refine List.count_eq_zero.mp ?_
    unfold tally at hu0
    omega
  cases o0 with
  | found v =>
    simp only [batch_step]
    unfold tally
    rw [insertA_not_mem u0 v acc.found hfound, List.map_append]
    simp only [List.map_cons, List.map_nil]
    rw [count_append_one _ u0 w, if_neg hw]
    simp
  | missing =>
    simp only [batch_step]
    unfold tally
    rw [count_append_one _ u0 w, if_neg hw]
    simp
  | failed msg =>
    simp only [batch_step]
    unfold tally
    rw [insertA_not_mem u0 msg acc.errors herr, List.map_append]
    simp only [List.map_cons, List.map_nil]
    rw [count_append_one _ u0 w, if_neg hw]
    simp

/-- Characterization of the batch loop under a duplicate-free input:
it appends to the accumulator exactly the found, missing and error
entries of the processed pairs, in input order. -/
theorem batch_get_go_eq {T : Type} :
    ∀ (pairs : List (String × GetOutcome T)) (acc : BatchGetResult T),
      (pairs.map Prod.fst).Nodup →
      (∀ w ∈ pairs.map Prod.fst, tally acc w = 0) →
      batch_get_go pairs acc =
        ⟨acc.found ++ foundEntries pairs, acc.missing ++ missingEntries pairs,
         acc.errors ++ errorEntries pairs⟩ := by
  intro pairs
  induction pairs with
  | nil =>
    intro acc _ _
    simp [batch_get_go, foundEntries, missingEntries, errorEntries]
  | cons p t ih =>
    obtain ⟨u0, o0⟩ := p
    intro acc hnd hfresh
    simp only [List.map_cons, List.nodup_cons] at hnd
    have hu0 : tally acc u0 = 0 := hfresh u0 (by simp)
    have hfound : u0 ∉ acc.found.map Prod.fst := by
      refine List.count_eq_zero.mp ?_
      unfold tally at hu0
      omega
    have herr : u0 ∉ acc.errors.map Prod.fst := by
      refine List.count_eq_zero.mp ?_
      unfold tally at hu0
      omega
    have hfresh2 : ∀ w ∈ t.map Prod.fst, tally (batch_step acc u0 o0) w = 0 := by
      intro w hw
      rw [tally_batch_step_ne acc u0 o0 hu0 w (fun hwu => hnd.1 (hwu ▸ hw))]
      exact hfresh w (by simp [hw])
    rw [batch_get_go, ih (batch_step acc u0 o0) hnd.2 hfresh2]
    cases o0 with
    | found v =>
      simp [batch_step, insertA_not_mem u0 v acc.found hfound,
        foundEntries, missingEntries, errorEntries]
    | missing =>
      simp [batch_step, foundEntries, missingEntries, errorEntries]
    | failed msg =>
      simp [batch_step, insertA_not_mem u0 msg acc.errors herr,
        foundEntries, missingEntries, errorEntries]

/-- Each processed pair lands in exactly one of the three entry lists:
the three counts sum to the count among the pairs' uuids. -/
theorem tri_count {T : Type} (pairs : List (String × GetOutcome T)) (u : String) :
    ((foundEntries pairs).map Prod.fst).count u + (missingEntries pairs).count u +
      ((errorEntries pairs).map Prod.fst).count u = (pairs.map Prod.fst).count u := by
  induction pairs with
  | nil => simp [foundEntries, missingEntries, errorEntries]
  | cons p t ih =>
    obtain ⟨u0, o0⟩ := p
    cases o0 with
    | found v =>
      simp only [foundEntries, missingEntries, errorEntries, List.filterMap_cons] at ih ⊢
      simp only [List.map_cons, List.count_cons]
      omega
    | missing =>
      simp only [foundEntries, missingEntries, errorEntries, List.filterMap_cons] at ih ⊢
      simp only [List.map_cons, List.count_cons]
      omega
    | failed msg =>
      simp only [foundEntries, missingEntries, errorEntries, List.filterMap_cons] at ih ⊢
      simp only [List.map_cons, List.count_cons]
      omega

/-- C7 (amended): for a duplicate-free input list, batch_get never
aborts, its three collections cover every input uuid exactly once (and
no other uuid), and every per-uuid failure is recorded in errors with
its message while all remaining uuids are still attempted. -/
theorem C7_batch_partition (T : Type) (uuids : List String) (outcomes : List (GetOutcome T))
    (hlen : outcomes.length = uuids.length) (hnd : uuids.Nodup) :
    ∃ r, batch_get uuids outcomes = .ok r ∧
      (∀ u, tally r u = if u ∈ uuids then 1 else 0) ∧
      (∀ u msg, (u, GetOutcome.failed msg) ∈ uuids.zip outcomes → (u, msg) ∈ r.errors) := by
  have hmap : (uuids.zip outcomes).map Prod.fst = uuids :=
    List.map_fst_zip uuids outcomes (by omega)
  have hchar := batch_get_go_eq (uuids.zip outcomes) ⟨[], [], []⟩
    (by rw [hmap]; exact hnd) (by intro w _; rfl)
  refine ⟨_, rfl, ?_, ?_⟩
  · intro u
    show tally (batch_get_go (uuids.zip outcomes) ⟨[], [], []⟩) u = _
    rw [hchar]
    unfold tally
    simp only [List.nil_append]
    rw [tri_count (uuids.zip outcomes) u, hmap]
    by_cases hu : u ∈ uuids
    · rw [if_pos hu]
      exact List.count_eq_one_of_mem hnd hu
    · rw [if_neg hu]
      exact List.count_eq_zero_of_not_mem hu
  · intro u msg hmem
    show (u, msg) ∈ (batch_get_go (uuids.zip outcomes) ⟨[], [], []⟩).errors
    rw [hchar]
    simp only [List.nil_append]
    exact List.mem_filterMap.mpr ⟨(u, GetOutcome.failed msg), hmem, rfl⟩

/-- C7 counterexample: with the duplicated input list ["a", "a"] and a
first call that finds a value while the second fails, the uuid "a" ends
up in both found and errors — it is covered twice, not exactly once. -/
theorem C7_counterexample :
    @batch_get String ["a", "a"] [.found "v", .failed "boom"] =
      .ok ⟨[("a", "v")], [], [("a", "boom")]⟩ ∧
    tally (⟨[("a", "v")], [], [("a", "boom")]⟩ : BatchGetResult String) "a" = 2 := by
  exact ⟨rfl, by decide⟩

/-- C7 witness: the amended partition at a concrete duplicate-free
input with one found, one missing and one failing uuid. -/
theorem C7_witness :
    ∃ r, @batch_get String ["a", "b", "c"] [.found "v", .missing, .failed "x"] = .ok r ∧
      (∀ u, tally r u = if u ∈ ["a", "b", "c"] then 1 else 0) ∧
      (∀ u msg,
        (u, GetOutcome.failed msg) ∈ (["a", "b", "c"].zip [.found "v", .missing, .failed "x"]) →
        (u, msg) ∈ r.errors) := by
  exact C7_batch_partition String ["a", "b", "c"] [.found "v", .missing, .failed "x"]
    rfl (by decide)

/-- C8: every transaction-scoped operation on an inactive handle
returns a Transaction error with no network request and an unchanged
handle; a successful commit or rollback flips an active handle to
inactive; and no operation ever turns an inactive handle active
again. -/
theorem C8_tx_lifecycle (T : Type) (d : Decoder T) (tx : Transaction)
    (endpoints : List String) (ns model collection uuid : String) (data : Json)
    (response : Response) :
    (tx.is_active = false →
      tx_get d tx endpoints ns model collection uuid response =
        ⟨.error (.Transaction "transaction is not active"), false, tx⟩ ∧
      tx_put tx endpoints ns model collection uuid data response =
        ⟨.error (.Transaction "transaction is not active"), false, tx⟩ ∧
      tx_delete tx endpoints ns model collection uuid response =
        ⟨.error (.Transaction "transaction is not active"), false, tx⟩ ∧
      tx_query d tx endpoints response =
        ⟨.error (.Transaction "transaction is not active"), false, tx⟩ ∧
      tx_commit tx endpoints response =
        ⟨.error (.Transaction "transaction is not active"), false, tx⟩ ∧
      tx_rollback tx endpoints response =
        ⟨.error (.Transaction "transaction is not active"), false, tx⟩) ∧
    (tx.is_active = true → endpoints ≠ [] → is_success response.status = true →
      tx_commit tx endpoints response = ⟨.ok (), true, ⟨tx.transaction_id, false⟩⟩ ∧
      tx_rollback tx endpoints response = ⟨.ok (), true, ⟨tx.transaction_id, false⟩⟩) ∧
    ((tx_get d tx endpoints ns model collection uuid response).tx.is_active = true →
      tx.is_active = true) ∧
    ((tx_put tx endpoints ns model collection uuid data response).tx.is_active = true →
      tx.is_active = true) ∧
    ((tx_delete tx endpoints ns model collection uuid response).tx.is_active = true →
      tx.is_active = true) ∧
    ((tx_query d tx endpoints response).tx.is_active = true → tx.is_active = true) ∧
    ((tx_commit tx endpoints response).tx.is_active = true → tx.is_active = true) ∧
    ((tx_rollback tx endpoints response).tx.is_active = true → tx.is_active = true) := by
  refine ⟨?_, ?_, ?_, ?_, ?_, ?_, ?_, ?_⟩
  · intro h
    refine ⟨?_, ?_, ?_, ?_, ?_, ?_⟩ <;>
      simp [tx_get, tx_put, tx_delete, tx_query, tx_commit, tx_rollback, ensure_active, h]
  · intro ha hne hs
    cases endpoints with
    | nil => exact absurd rfl hne
    | cons e rest =>
      constructor <;>
        simp [tx_commit, tx_rollback, ensure_active, ensure_success, ha, hs]
  · intro h
    cases hb : tx.is_active
    · simp_all [tx_get, ensure_active]
    · rfl
  · intro h
    cases hb : tx.is_active
    · simp_all [tx_put, ensure_active]
    · rfl
  · intro h
    cases hb : tx.is_active
    · simp_all [tx_delete, ensure_active]
    · rfl
  · intro h
    cases hb : tx.is_active
    · simp_all [tx_query, ensure_active]
    · rfl
  · intro h
    cases hb : tx.is_active
    · simp_all [tx_commit, ensure_active]
    · rfl
  · intro h
    cases hb : tx.is_active
    · simp_all [tx_rollback, ensure_active]
    · rfl

/-- C8 witness: an inactive handle fails fast on every operation with
no network request, and an active handle is flipped inactive by a
successful commit, at concrete inputs. -/
theorem C8_witness :
    tx_commit ⟨"t1", false⟩ ["http://a"] ⟨200, "", some .null⟩ =
      ⟨.error (.Transaction "transaction is not active"), false, ⟨"t1", false⟩⟩ ∧
    tx_get stringDecoder ⟨"t1", false⟩ ["http://a"] "default" "relational" "users" "1"
        ⟨200, "", some .null⟩ =
      ⟨.error (.Transaction "transaction is not active"), false, ⟨"t1", false⟩⟩ ∧
    tx_commit ⟨"t1", true⟩ ["http://a"] ⟨200, "", some .null⟩ =
      ⟨.ok (), true, ⟨"t1", false⟩⟩ ∧
    tx_rollback ⟨"t1", true⟩ ["http://a"] ⟨200, "", some .null⟩ =
      ⟨.ok (), true, ⟨"t1", false⟩⟩ := by
  have h1 := C8_tx_lifecycle String stringDecoder ⟨"t1", false⟩ ["http://a"]
    "default" "relational" "users" "1" .null ⟨200, "", some .null⟩
  have h2 := C8_tx_lifecycle String stringDecoder ⟨"t1", true⟩ ["http://a"]
    "default" "relational" "users" "1" .null ⟨200, "", some .null⟩
  have hinactive := h1.1 rfl
  have hactive := h2.2.1 rfl (by decide) (by decide)
  exact ⟨hinactive.2.2.2.2.1, hinactive.1, hactive.1, hactive.2⟩

/-- The retry loop entered at attempt a < m performs at most m - a
sends. -/
theorem request_loop_sends (outcomes : Nat → SendOutcome) :
    ∀ k m a, a < m → m - a ≤ k → (request_loop outcomes m a).2 ≤ m - a := by
  intro k
  induction k with
  | zero =>
    intro m a h1 h2
    omega
  | succ k ih =>
    intro m a h1 h2
    rw [request_loop]
    cases houtcome : outcomes a with
    | ok status =>
      dsimp only
      by_cases hc : is_server_error status = true ∧ a + 1 < m
      · rw [dif_pos hc]
        have := ih m (a + 1) hc.2 (by omega)
        show (request_loop outcomes m (a + 1)).2 + 1 ≤ m - a
        omega
      · rw [dif_neg hc]
        show 1 ≤ m - a
        omega
    | failed retryable =>
      dsimp only
      by_cases hc : m ≤ a + 1 ∨ retryable = false
      · rw [dif_pos hc]
        show 1 ≤ m - a
        omega
      · rw [dif_neg hc]
        push_neg at hc
        have := ih m (a + 1) (by omega) (by omega)
        show (request_loop outcomes m (a + 1)).2 + 1 ≤ m - a
        omega

/-- C9: the retrying executor performs at most max(max_retries, 1) send
attempts, and a first send that returns any non-5xx status (including
4xx) is returned immediately after exactly one attempt. -/
theorem C9_retry_bound (outcomes : Nat → SendOutcome) (max_retries : Nat) :
    (request_with_headers outcomes max_retries).2 ≤ max max_retries 1 ∧
    (∀ status, outcomes 0 = .ok status → is_server_error status = false →
      request_with_headers outcomes max_retries = (.ok status, 1)) := by
  constructor
  · have h := request_loop_sends outcomes (max max_retries 1) (max max_retries 1) 0
      (by omega) (by omega)
    unfold request_with_headers
    omega
  · intro status h0 hs
    unfold request_with_headers
    rw [request_loop, h0]
    dsimp only
    rw [dif_neg (by simp [hs])]

/-- C9 witness: a constant 404 responder is returned on the first
attempt, within the bound of max(3, 1) sends. -/
theorem C9_witness :
    (request_with_headers (fun _ => .ok 404) 3).2 ≤ max 3 1 ∧
    request_with_headers (fun _ => .ok 404) 3 = (.ok 404, 1) := by
  have h := C9_retry_bound (fun _ => .ok 404) 3
  exact ⟨h.1, h.2 404 rfl (by decide)⟩

/-- C6 witness: the sortedness and truncation facts at the concrete
two-shard scenario with k = 2. -/
theorem C6_witness :
    (∃ final, merge_vector_results
        [.obj [("results", .arr [.obj [("score", .num 90)], .obj [("score", .num 20)]])],
         .obj [("results", .arr [.obj [("score", .num 95)], .obj [("score", .num 10)]])]] none =
        .obj [("results", .arr final),
              ("partials", .arr
                [.obj [("results", .arr [.obj [("score", .num 90)], .obj [("score", .num 20)]])],
                 .obj [("results", .arr [.obj [("score", .num 95)], .obj [("score", .num 10)]])]])] ∧
      final.Pairwise (fun x y => score_value y ≤ score_value x)) ∧
    (∃ final, merge_vector_results
        [.obj [("results", .arr [.obj [("score", .num 90)], .obj [("score", .num 20)]])],
         .obj [("results", .arr [.obj [("score", .num 95)], .obj [("score", .num 10)]])]] (some 2) =
        .obj [("results", .arr final),
              ("partials", .arr
                [.obj [("results", .arr [.obj [("score", .num 90)], .obj [("score", .num 20)]])],
                 .obj [("results", .arr [.obj [("score", .num 95)], .obj [("score", .num 10)]])]])] ∧
      final.Pairwise (fun x y => score_value y ≤ score_value x) ∧
      final = (sortScoreDesc (gather_results
        [.obj [("results", .arr [.obj [("score", .num 90)], .obj [("score", .num 20)]])],
         .obj [("results", .arr [.obj [("score", .num 95)], .obj [("score", .num 10)]])]])).take 2 ∧
      final.length ≤ 2) :=
  C6_vector_merge
    [.obj [("results", .arr [.obj [("score", .num 90)], .obj [("score", .num 20)]])],
     .obj [("results", .arr [.obj [("score", .num 95)], .obj [("score", .num 10)]])]] 2
